import Mathlib

/-!
Verification of the tile-scheduling and double-buffered transfer engine of
`layerConvDWBNRelu9.c` (DORY-generated depthwise-convolution layer for the
MobileNetV1 application).

The layer body is a loop of `8*1*1` iterations over a tile grid with 8
output-channel blocks and degenerate (size 1) height and width grids.  We
embed the scheduler state of the loop (double-buffer parity bits and the
load/exec tile coordinates) as an explicit state machine: `step` performs one
loop iteration, returning the successor state together with the values that
the iteration observes (double-buffer byte offsets, the weight-reload
condition, the coordinates handed to the DMA calls and to the compute kernel,
and the four padding flags).  A separate event trace records the program
order of DMA issues, waits, barriers, compute invocations and write-backs,
for the temporal properties.
-/

namespace LayerConvDWBNRelu9

/-- A tile coordinate: output-channel block, input-channel block, height
block and width block (the four loop indices of the C code). -/
structure Coord where
  nof : Nat
  nif : Nat
  h : Nat
  w : Nat
deriving DecidableEq, Repr

/-- Scheduler state of one loop iteration: the three double-buffer parity
bits (`db_state_x`, `db_state_W`, `db_state_y`, lines 84-86; the C ints take
only the values 0 and 1, embedded as `Bool` with 0 = `false`) and the load
and exec tile indices (lines 90-91). -/
structure St where
  db_state_x : Bool
  db_state_W : Bool
  db_state_y : Bool
  i_nof_load : Nat
  i_nif_load : Nat
  i_h_load : Nat
  i_w_load : Nat
  i_nof_exec : Nat
  i_nif_exec : Nat
  i_h_exec : Nat
  i_w_exec : Nat
deriving DecidableEq, Repr

/-- Values observed during one loop iteration: the double-buffer offsets of
lines 167-174, the weight-reload condition of lines 175 and 213, the load
coordinate after the advance of lines 152-163, the exec coordinate used by
this iteration (before the update of lines 329-332), and the padding flags
of lines 261-272. -/
structure IterObs where
  db_x : Nat
  db_W : Nat
  db_y : Nat
  db_act : Nat
  exec_db_x : Nat
  exec_db_W : Nat
  exec_db_act : Nat
  reloadW : Bool
  load_nof : Nat
  load_nif : Nat
  load_h : Nat
  load_w : Nat
  exec_nof : Nat
  exec_nif : Nat
  exec_h : Nat
  exec_w : Nat
  p_t : Nat
  p_b : Nat
  p_l : Nat
  p_r : Nat
deriving DecidableEq, Repr

/-- One iteration of the tile loop (lines 150-334 of layerConvDWBNRelu9.c).
The loop body first advances the load coordinate (lines 152-163: width
innermost, wrapping at grid size 1 into height, wrapping at grid size 1 into
the channel-block indices), then computes the double-buffer offsets and
updates the parity state (lines 167-176: `db_state_y` is never modified),
derives the padding flags from the exec coordinate (lines 261-272, with both
spatial grids of size 1 so the last block index is `1-1`), and finally sets
the exec coordinate to the load coordinate (lines 329-332). -/
def step (s : St) : St × IterObs :=
  let w1 := s.i_w_load + 1
  let adv :=
    if w1 == 1 then
      let h1 := s.i_h_load + 1
      if h1 == 1 then (s.i_nof_load + 1, s.i_nif_load + 1, 0, 0)
      else (s.i_nof_load, s.i_nif_load, h1, 0)
    else (s.i_nof_load, s.i_nif_load, s.i_h_load, w1)
  let nof2 := adv.1
  let nif2 := adv.2.1
  let h2 := adv.2.2.1
  let w2 := adv.2.2.2
  let db_x := if s.db_state_x then 0 else 8192
  let db_W := if s.db_state_W then 0 else 288
  let db_y := if s.db_state_y then 0 else 8192
  let db_act := if s.db_state_W then 0 else 128
  let exec_db_x := if s.db_state_x then 8192 else 0
  let db_state_x2 := ! s.db_state_x
  let exec_db_W := if s.db_state_W then 288 else 0
  let exec_db_act := if s.db_state_W then 128 else 0
  let reloadW := (nif2 != s.i_nif_exec) || (nof2 != s.i_nof_exec)
  let db_state_W2 := if reloadW then ! s.db_state_W else s.db_state_W
  let p_t := if s.i_h_exec == 0 then 1 else 0
  let p_l := if s.i_w_exec == 0 then 1 else 0
  let p_b := if s.i_h_exec == 1 - 1 then 1 else 0
  let p_r := if s.i_w_exec == 1 - 1 then 1 else 0
  ( { db_state_x := db_state_x2, db_state_W := db_state_W2,
      db_state_y := s.db_state_y,
      i_nof_load := nof2, i_nif_load := nif2, i_h_load := h2, i_w_load := w2,
      i_nof_exec := nof2, i_nif_exec := nif2, i_h_exec := h2, i_w_exec := w2 },
    { db_x := db_x, db_W := db_W, db_y := db_y, db_act := db_act,
      exec_db_x := exec_db_x, exec_db_W := exec_db_W,
      exec_db_act := exec_db_act, reloadW := reloadW,
      load_nof := nof2, load_nif := nif2, load_h := h2, load_w := w2,
      exec_nof := s.i_nof_exec, exec_nif := s.i_nif_exec,
      exec_h := s.i_h_exec, exec_w := s.i_w_exec,
      p_t := p_t, p_b := p_b, p_l := p_l, p_r := p_r } )

/-- Initial scheduler state (lines 84-91): parities x = 0, W = 0, y = 1 and
all eight tile indices zero. -/
def st0 : St :=
  { db_state_x := false, db_state_W := false, db_state_y := true,
    i_nof_load := 0, i_nif_load := 0, i_h_load := 0, i_w_load := 0,
    i_nof_exec := 0, i_nif_exec := 0, i_h_exec := 0, i_w_exec := 0 }

/-- Scheduler state at the top of loop iteration `n` (before the body). -/
def stateAt : Nat → St
  | 0 => st0
  | n + 1 => (step (stateAt n)).1

/-- Observations of loop iteration `n`. -/
def obsAt (n : Nat) : IterObs := (step (stateAt n)).2

/-- Total number of loop iterations (line 150: `iter < 8*1*1`). -/
def numIters : Nat := 8 * 1 * 1

/-- The guard of lines 179 and 309: a prefetch is issued, and a pending
weight/requantization transfer is waited on, only for `iter < 8*1*1 - 1`. -/
def prefetchIssued (i : Nat) : Bool := decide (i < numIters - 1)

/-- Whether iteration `i` issues the weight and requantization transfers
(lines 213-243: inside the `iter < 8*1*1-1` guard, when the load
channel-block pair differs from the exec pair). -/
def weightIssued (i : Nat) : Bool := prefetchIssued i && (obsAt i).reloadW

/-- Input tile size in bytes at the load coordinate, line 185:
`x_tile_size_nif * x_tile_size_h * x_tile_size_w * 8/8` with the ternaries of
lines 182-184. -/
def x_tile_size_byte (o : IterObs) : Nat :=
  ((if o.load_nif + 1 == 8 then 32 else 32) *
   (if o.load_h + 1 == 1 then 16 else 16) *
   (if o.load_w + 1 == 1 then 16 else 16) * 8) / 8

/-- Weight tile output-channel count at the load coordinate, line 196. -/
def W_tile_size_nof (o : IterObs) : Nat := if o.load_nof + 1 == 8 then 32 else 32

/-- Weight tile size in bytes at the load coordinate, line 198. -/
def W_tile_size_byte (o : IterObs) : Nat :=
  W_tile_size_nof o * (if o.load_nif + 1 == 8 then 1 else 1) * 3 * 3

/-- Size of each requantization transfer, lines 230 and 237:
`W_tile_size_nof * 4` bytes. -/
def copy_act_size (o : IterObs) : Nat := W_tile_size_nof o * 4

/-- Output tile size in bytes at the exec coordinate, lines 256-259. -/
def y_tile_size_byte (o : IterObs) : Nat :=
  ((if o.exec_nof + 1 == 8 then 32 else 32) *
   (if o.exec_h + 1 == 1 then 16 else 16) *
   (if o.exec_w + 1 == 1 then 16 else 16) * 8) / 8

/-- Number of bytes of the input tile read by the compute kernel, from the
exec-side sizes passed to `pulp_nn_depthwise_generic` (lines 253-255,
277-280): channels times height times width, one byte per element. -/
def x_exec_size_byte (o : IterObs) : Nat :=
  (if o.exec_nif + 1 == 8 then 32 else 32) *
  (if o.exec_h + 1 == 1 then 16 else 16) *
  (if o.exec_w + 1 == 1 then 16 else 16)

section Trace

/-- Events of the engine in core-0 program order: the prologue transfers and
waits (lines 101-146), and per iteration the input prefetch (line 201), the
weight and requantization issues (lines 215-241), the barriers (lines 274,
306, 333), the compute-kernel invocation (line 276), the requantization waits
(lines 313-314) and the blocking output write-back (line 317). -/
inductive Ev where
  | issueK0 : Ev
  | issueLam0 : Ev
  | waitK0 : Ev
  | waitLam0 : Ev
  | loadX0 : Ev
  | loadW0 : Ev
  | barrier : Ev
  | prefX (i : Nat) : Ev
  | issueW (i : Nat) : Ev
  | issueK (i : Nat) : Ev
  | issueLam (i : Nat) : Ev
  | compute (i : Nat) : Ev
  | waitK (i : Nat) : Ev
  | waitLam (i : Nat) : Ev
  | writeY (i : Nat) : Ev
deriving DecidableEq, Repr

/-- Events of loop iteration `i` in program order (lines 150-334): the
double-buffered reads under the `iter < 8*1*1-1` guard (prefetch of the next
input tile, then weight plus requantization issues when the channel block
changed), the barrier before compute, the compute kernel, the barrier after
compute, the waits for the requantization copies (again under the
`iter < 8*1*1-1` guard and the channel-block condition), the output
write-back, and the end-of-iteration barrier. -/
def iterTrace (i : Nat) : List Ev :=
  (if i < numIters - 1 then
    [Ev.prefX i] ++
    (if (obsAt i).reloadW then [Ev.issueW i, Ev.issueK i, Ev.issueLam i]
     else [])
   else []) ++
  [Ev.barrier, Ev.compute i, Ev.barrier] ++
  (if i < numIters - 1 ∧ (obsAt i).reloadW then [Ev.waitK i, Ev.waitLam i]
   else []) ++
  [Ev.writeY i, Ev.barrier]

/-- Prologue events: requantization issue and blocking wait for channel
block 0 (lines 101-118), barrier (line 120), first input and weight tile
transfers (lines 124-145), barrier (line 146). -/
def prologueTrace : List Ev :=
  [Ev.issueK0, Ev.issueLam0, Ev.waitK0, Ev.waitLam0, Ev.barrier,
   Ev.loadX0, Ev.loadW0, Ev.barrier]

/-- The full core-0 event trace of the layer: prologue followed by the
`8*1*1` loop iterations. -/
def trace : List Ev :=
  prologueTrace ++ ((List.range numIters).map iterTrace).flatten

/-- Position of an event in the full trace (the trace never repeats an
event, barriers apart). -/
def pos (e : Ev) : Nat := trace.indexOf e

/-- Recognizer for input-prefetch events. -/
def isPrefX : Ev → Bool
  | .prefX _ => true
  | _ => false

/-- Recognizer for output write-back events. -/
def isWriteY : Ev → Bool
  | .writeY _ => true
  | _ => false

/-- Recognizer for loop requantization-multiplier issue events. -/
def isIssueK : Ev → Bool
  | .issueK _ => true
  | _ => false

end Trace

section Layout

/-- A byte interval inside the L1 scratchpad: start offset and length. -/
structure LocRange where
  lo : Nat
  len : Nat
deriving DecidableEq, Repr

/-- Two intervals do not overlap. -/
def LocRange.disjoint (a b : LocRange) : Prop :=
  a.lo + a.len ≤ b.lo ∨ b.lo + b.len ≤ a.lo

/-- The first interval lies entirely inside the second. -/
def LocRange.inside (a r : LocRange) : Prop :=
  r.lo ≤ a.lo ∧ a.lo + a.len ≤ r.lo + r.len

instance (a b : LocRange) : Decidable (LocRange.disjoint a b) := by
  unfold LocRange.disjoint; infer_instance

instance (a r : LocRange) : Decidable (LocRange.inside a r) := by
  unfold LocRange.inside; infer_instance

/-- Input double-buffer region: two 8192-byte slots at l1_buffer + 0
(lines 126, 203, 247: offsets 0 and 8192). -/
def xRegion : LocRange := ⟨0, 2 * 8192⟩

/-- Output double-buffer region: two 8192-byte slots at l1_buffer + 16388
(lines 251, 319). -/
def yRegion : LocRange := ⟨16388, 2 * 8192⟩

/-- Weight double-buffer region: two 288-byte slots at l1_buffer + 32776
(lines 137, 217, 250). -/
def wRegion : LocRange := ⟨32776, 2 * 288⟩

/-- Requantization-multiplier double-buffer region: two 128-byte slots at
l1_buffer + 33356 (lines 108, 233, 248). -/
def kRegion : LocRange := ⟨33356, 2 * 128⟩

/-- Requantization-shift (lambda) double-buffer region: two 128-byte slots
at l1_buffer + 33616 (lines 115, 240, 249). -/
def lamRegion : LocRange := ⟨33616, 2 * 128⟩

/-- im2col workspace: 456 bytes at l1_buffer + 33896 (lines 93, 95). -/
def im2colRegion : LocRange := ⟨33896, 456⟩

/-- Start of the pwt workspace: `im2col + 456` (line 95). -/
def pwtOff : Nat := 33896 + 456

/-- The seven named scratchpad regions, in address order. -/
def regions : List LocRange :=
  [xRegion, yRegion, wRegion, kRegion, lamRegion, im2colRegion]

/-- Destination interval of the prologue input transfer (lines 124-134:
loc `(l1_buffer + 0) + 0`, size 8192). -/
def prologueXRange : LocRange := ⟨0 + 0, 8192⟩

/-- Destination interval of the prologue weight transfer (lines 135-145:
loc `(l1_buffer + 32776) + 0`, size 288). -/
def prologueWRange : LocRange := ⟨32776 + 0, 288⟩

/-- Destination interval of the prologue copy_k (lines 105-108). -/
def prologueKRange : LocRange := ⟨33356, 128⟩

/-- Destination interval of the prologue copy_lambda (lines 112-115). -/
def prologueLamRange : LocRange := ⟨33616, 128⟩

/-- Destination interval of the input prefetch of iteration `i`
(lines 201-211: loc `(l1_buffer + 0) + db_x`, size `x_tile_size_byte`). -/
def xLoadRange (i : Nat) : LocRange :=
  ⟨0 + (obsAt i).db_x, x_tile_size_byte (obsAt i)⟩

/-- Destination interval of the weight transfer of iteration `i`
(lines 215-225: loc `(l1_buffer + 32776) + db_W`). -/
def wLoadRange (i : Nat) : LocRange :=
  ⟨32776 + (obsAt i).db_W, W_tile_size_byte (obsAt i)⟩

/-- Destination interval of copy_k of iteration `i` (lines 230-233:
loc `l1_buffer + 33356 + db_act`, size `W_tile_size_nof * 4`). -/
def kLoadRange (i : Nat) : LocRange :=
  ⟨33356 + (obsAt i).db_act, copy_act_size (obsAt i)⟩

/-- Destination interval of copy_lambda of iteration `i` (lines 237-240). -/
def lamLoadRange (i : Nat) : LocRange :=
  ⟨33616 + (obsAt i).db_act, copy_act_size (obsAt i)⟩

/-- Source interval of the output write-back of iteration `i`
(lines 317-327: loc `(l1_buffer + 16388) + db_y`, size
`y_tile_size_byte`). -/
def yStoreRange (i : Nat) : LocRange :=
  ⟨16388 + (obsAt i).db_y, y_tile_size_byte (obsAt i)⟩

/-- Interval of the input pointer handed to the compute kernel at iteration
`i` (line 247: `l1_buffer + 0 + exec_db_x`, read extent from the exec tile
sizes). -/
def xExecRange (i : Nat) : LocRange :=
  ⟨0 + (obsAt i).exec_db_x, x_exec_size_byte (obsAt i)⟩

/-- Interval of the weight pointer handed to the compute kernel at iteration
`i` (line 250: `l1_buffer + 32776 + exec_db_W`, 32 channels of 3x3 single-
channel 8-bit filters). -/
def wExecRange (i : Nat) : LocRange :=
  ⟨32776 + (obsAt i).exec_db_W, 32 * 1 * 3 * 3⟩

/-- Interval of the multiplier pointer handed to the compute kernel at
iteration `i` (line 248: `l1_buffer + 33356 + exec_db_act`, 32 int32). -/
def kExecRange (i : Nat) : LocRange :=
  ⟨33356 + (obsAt i).exec_db_act, 32 * 4⟩

/-- Interval of the lambda pointer handed to the compute kernel at iteration
`i` (line 249: `l1_buffer + 33616 + exec_db_act`, 32 int32). -/
def lamExecRange (i : Nat) : LocRange :=
  ⟨33616 + (obsAt i).exec_db_act, 32 * 4⟩

/-- Interval of the output pointer handed to the compute kernel at iteration
`i` (line 251: `l1_buffer + 16388 + db_y`, write extent from the exec tile
sizes). -/
def yExecRange (i : Nat) : LocRange :=
  ⟨16388 + (obsAt i).db_y, y_tile_size_byte (obsAt i)⟩

end Layout

/-- Channel blocks targeted by the requantization (and weight) transfers, in
issue order: the prologue transfer reads `l2_W + 2304` (line 107), i.e.
channel block 0, and the loop transfer of iteration `i` reads
`l2_W + 2304 + 128 * _i_nof_load` (line 232), i.e. channel block
`_i_nof_load`; the weight transfer of the same iteration addresses the same
block (line 216). -/
def kTransferBlocks : List Nat :=
  0 :: (((List.range numIters).filter (fun i => weightIssued i)).map
    (fun i => (obsAt i).load_nof))

/-- The exec tile coordinate (height, width, output-channel block) that
addresses the output write-back of each iteration (line 318:
`dory_get_tile_3d(l2_y, _i_h_exec, _i_w_exec, _i_nof_exec, ...)`). -/
def ybCoords : List (Nat × Nat × Nat) :=
  (List.range numIters).map
    (fun i => ((obsAt i).exec_h, (obsAt i).exec_w, (obsAt i).exec_nof))

/-- The load coordinate of a scheduler state as a `Coord`. -/
def loadCoord (s : St) : Coord :=
  ⟨s.i_nof_load, s.i_nif_load, s.i_h_load, s.i_w_load⟩

/-- The exec coordinate of a scheduler state as a `Coord`. -/
def execCoord (s : St) : Coord :=
  ⟨s.i_nof_exec, s.i_nif_exec, s.i_h_exec, s.i_w_exec⟩

/-- Spec-side definition (for the refinement claim about the loop-index
advance): one step of the nested enumeration order, width innermost wrapping
at its grid size and carrying into height and then into the channel-block
indices, like a multi-digit odometer; the input- and output-channel blocks
advance together. -/
def odometerNext (wGrid hGrid : Nat) (c : Coord) : Coord :=
  if c.w + 1 < wGrid then { c with w := c.w + 1 }
  else if c.h + 1 < hGrid then { c with w := 0, h := c.h + 1 }
  else { nof := c.nof + 1, nif := c.nif + 1, h := 0, w := 0 }

/-- C1, counterexample: at iteration 0 the output-role parity bit is not
toggled (`db_state_y` is initialized at line 86 and never written again),
and the output slot offset `db_y` used at iteration 1 equals the one used at
iteration 0 — refuting the claim that the parity bits of both the input and
the output role are toggled on every iteration so that the output slot
offset differs between consecutive iterations. -/
theorem C1_counterexample :
    (stateAt 1).db_state_y = (stateAt 0).db_state_y ∧
    (obsAt 1).db_y = (obsAt 0).db_y ∧
    ¬ (obsAt 1).db_y ≠ (obsAt 0).db_y := by
  decide

/-- C1, amended: on every loop iteration the input-role parity bit is
toggled, so both input-role slot offsets (load and exec) differ between
consecutive iterations; the output-role parity bit `db_state_y` keeps its
initial value 1 on every iteration, so the output slot offset `db_y` is 0 in
every iteration and the same output slot is reused throughout. -/
theorem C1_amended_parity :
    (∀ i : Fin 8,
      (stateAt (i.val + 1)).db_state_x = ! (stateAt i.val).db_state_x ∧
      (stateAt (i.val + 1)).db_state_y = (stateAt i.val).db_state_y ∧
      (stateAt i.val).db_state_y = true ∧
      (obsAt i.val).db_y = 0) ∧
    (∀ i : Fin 7,
      (obsAt (i.val + 1)).exec_db_x ≠ (obsAt i.val).exec_db_x ∧
      (obsAt (i.val + 1)).db_x ≠ (obsAt i.val).db_x) := by
  decide

/-- C1 witness: the amended statement instantiated at iteration 0. -/
theorem C1_amended_parity_witness :
    (stateAt 1).db_state_x = ! (stateAt 0).db_state_x ∧
    (stateAt 1).db_state_y = (stateAt 0).db_state_y ∧
    (stateAt 0).db_state_y = true ∧
    (obsAt 0).db_y = 0 :=
  C1_amended_parity.1 ⟨0, by decide⟩

/-- C2: the input-buffer offset read by the compute kernel at iteration 0
equals the destination offset of the prologue input transfer; at every later
iteration `i+1` it equals the destination offset `db_x` of the prefetch
issued at iteration `i`; and in every iteration the load offset and the exec
offset of the input role are distinct. -/
theorem C2_exec_matches_prefetch :
    (obsAt 0).exec_db_x = prologueXRange.lo ∧
    (∀ i : Fin 7, (obsAt (i.val + 1)).exec_db_x = (obsAt i.val).db_x) ∧
    (∀ i : Fin 8, (obsAt i.val).db_x ≠ (obsAt i.val).exec_db_x) := by
  decide

/-- C2 witness: instantiated at iterations 0 and 1. -/
theorem C2_exec_matches_prefetch_witness :
    (obsAt 1).exec_db_x = (obsAt 0).db_x ∧
    (obsAt 0).db_x ≠ (obsAt 0).exec_db_x :=
  ⟨C2_exec_matches_prefetch.2.1 ⟨0, by decide⟩,
   C2_exec_matches_prefetch.2.2 ⟨0, by decide⟩⟩

/-- C3: over the whole layer execution the weight tile and the
requantization multiplier/shift pair are transferred exactly once per
distinct channel block — the transfer targets are exactly the blocks
0..7, each once (prologue: block 0; loop: blocks 1..7) — and in the loop the
transfer is issued exactly when the (output-channel-block,
input-channel-block) pair of the load coordinate differs from that of the
exec coordinate. -/
theorem C3_weight_transfers_once_per_block :
    kTransferBlocks = [0, 1, 2, 3, 4, 5, 6, 7] ∧
    kTransferBlocks.Nodup ∧
    kTransferBlocks.length = 8 ∧
    (trace.filter isIssueK).length = numIters - 1 ∧
    (∀ i : Fin 8,
      weightIssued i.val =
        (decide (i.val < numIters - 1) &&
          (((obsAt i.val).load_nof != (obsAt i.val).exec_nof) ||
           ((obsAt i.val).load_nif != (obsAt i.val).exec_nif))) ∧
      ((iterTrace i.val).filter isIssueK).length =
        (if weightIssued i.val then 1 else 0)) := by
  decide

/-- C3 witness: instantiated at iteration 0. -/
theorem C3_weight_transfers_once_per_block_witness :
    ((iterTrace 0).filter isIssueK).length =
      (if weightIssued 0 then 1 else 0) :=
  (C3_weight_transfers_once_per_block.2.2.2.2 ⟨0, by decide⟩).2

/-- C4: exactly `numIters - 1 = 7` input-tile prefetches are issued inside
the tile loop: every iteration except the final one issues exactly one
asynchronous input prefetch, and the final iteration issues none. -/
theorem C4_prefetch_count :
    (trace.filter isPrefX).length = numIters - 1 ∧
    (∀ i : Fin 8,
      ((iterTrace i.val).filter isPrefX).length =
        (if i.val < numIters - 1 then 1 else 0)) ∧
    ((iterTrace (numIters - 1)).filter isPrefX).length = 0 := by
  decide

/-- C4 witness: instantiated at iteration 0. -/
theorem C4_prefetch_count_witness :
    ((iterTrace 0).filter isPrefX).length =
      (if 0 < numIters - 1 then 1 else 0) :=
  C4_prefetch_count.2.1 ⟨0, by decide⟩

/-- C5: in every iteration the four padding flags handed to the compute
kernel satisfy: top iff the exec height block is 0, bottom iff it is the
last height block (`1 - 1`), left iff the exec width block is 0, right iff
it is the last width block; and since both spatial grids have size 1, all
four flags are 1 on every tile. -/
theorem C5_padding_flags :
    ∀ i : Fin 8,
      ((obsAt i.val).p_t = 1 ↔ (obsAt i.val).exec_h = 0) ∧
      ((obsAt i.val).p_b = 1 ↔ (obsAt i.val).exec_h = 1 - 1) ∧
      ((obsAt i.val).p_l = 1 ↔ (obsAt i.val).exec_w = 0) ∧
      ((obsAt i.val).p_r = 1 ↔ (obsAt i.val).exec_w = 1 - 1) ∧
      (obsAt i.val).p_t = 1 ∧ (obsAt i.val).p_b = 1 ∧
      (obsAt i.val).p_l = 1 ∧ (obsAt i.val).p_r = 1 := by
  decide

/-- C5 witness: instantiated at iteration 0. -/
theorem C5_padding_flags_witness :
    (obsAt 0).p_t = 1 ∧ (obsAt 0).p_b = 1 ∧
    (obsAt 0).p_l = 1 ∧ (obsAt 0).p_r = 1 :=
  (C5_padding_flags ⟨0, by decide⟩).2.2.2.2

/-- C6: exactly `numIters = 8` output-tile write-backs are issued, one per
loop iteration, each addressed by the exec tile coordinate of its iteration;
the eight exec coordinates are exactly (h, w, nof) = (0,0,0) .. (0,0,7), so
they are pairwise distinct and every output tile is written back exactly
once. -/
theorem C6_writeback_coverage :
    (trace.filter isWriteY).length = numIters ∧
    (∀ i : Fin 8, ((iterTrace i.val).filter isWriteY).length = 1) ∧
    ybCoords = [(0, 0, 0), (0, 0, 1), (0, 0, 2), (0, 0, 3),
                (0, 0, 4), (0, 0, 5), (0, 0, 6), (0, 0, 7)] ∧
    ybCoords.Nodup := by
  decide

/-- C6 witness: instantiated at iteration 0. -/
theorem C6_writeback_coverage_witness :
    ((iterTrace 0).filter isWriteY).length = 1 :=
  C6_writeback_coverage.2.1 ⟨0, by decide⟩

/-- C7: at the start of every iteration the load coordinate advances by
exactly one step of the nested enumeration order (width innermost wrapping
at grid size 1, carrying into height with grid size 1, carrying into the
channel-block indices); at the end of every iteration the exec coordinate is
set equal to the just-advanced load coordinate, so the compute step of
iteration `i+1` consumes exactly the coordinate prefetched at iteration
`i`. -/
theorem C7_odometer_and_exec_update :
    (∀ i : Fin 8,
      loadCoord (stateAt (i.val + 1)) =
        odometerNext 1 1 (loadCoord (stateAt i.val)) ∧
      (obsAt i.val).load_nof = (loadCoord (stateAt (i.val + 1))).nof ∧
      (obsAt i.val).load_h = (loadCoord (stateAt (i.val + 1))).h ∧
      (obsAt i.val).load_w = (loadCoord (stateAt (i.val + 1))).w ∧
      execCoord (stateAt (i.val + 1)) = loadCoord (stateAt (i.val + 1))) ∧
    (∀ i : Fin 7,
      (obsAt (i.val + 1)).exec_nof = (obsAt i.val).load_nof ∧
      (obsAt (i.val + 1)).exec_nif = (obsAt i.val).load_nif ∧
      (obsAt (i.val + 1)).exec_h = (obsAt i.val).load_h ∧
      (obsAt (i.val + 1)).exec_w = (obsAt i.val).load_w) := by
  decide

/-- C7 witness: instantiated at iteration 0. -/
theorem C7_odometer_and_exec_update_witness :
    loadCoord (stateAt 1) = odometerNext 1 1 (loadCoord (stateAt 0)) ∧
    (obsAt 1).exec_nof = (obsAt 0).load_nof :=
  ⟨(C7_odometer_and_exec_update.1 ⟨0, by decide⟩).1,
   (C7_odometer_and_exec_update.2 ⟨0, by decide⟩).1⟩

/-- C8, counterexample: at iteration 0 the weight/requantization transfer is
issued, yet in core-0 program order the compute-kernel invocation of
iteration 0 precedes the `pi_cl_dma_wait` on copy_k and copy_lambda — the
wait does not precede the compute step of the iteration that issued the
copies, refuting the claim as stated. -/
theorem C8_counterexample :
    weightIssued 0 = true ∧
    pos (Ev.compute 0) < pos (Ev.waitK 0) ∧
    pos (Ev.compute 0) < pos (Ev.waitLam 0) ∧
    ¬ pos (Ev.waitK 0) < pos (Ev.compute 0) := by
  decide

/-- C8, amended: in every iteration that issues the weight/requantization
transfers, the transfers are issued before that iteration's compute step,
the completion waits occur after that compute step (and before the output
write-back that ends the iteration), and the waits precede the compute step
of the next iteration — the iteration whose kernel consumes the transferred
weights and requantization parameters. -/
theorem C8_amended_wait_order :
    ∀ i : Fin 7,
      weightIssued i.val = true ∧
      pos (Ev.issueK i.val) < pos (Ev.compute i.val) ∧
      pos (Ev.issueLam i.val) < pos (Ev.compute i.val) ∧
      pos (Ev.compute i.val) < pos (Ev.waitK i.val) ∧
      pos (Ev.waitK i.val) < pos (Ev.waitLam i.val) ∧
      pos (Ev.waitLam i.val) < pos (Ev.writeY i.val) ∧
      pos (Ev.waitLam i.val) < pos (Ev.compute (i.val + 1)) := by
  decide

/-- C8 witness: the amended ordering instantiated at iteration 0. -/
theorem C8_amended_wait_order_witness :
    weightIssued 0 = true ∧
    pos (Ev.compute 0) < pos (Ev.waitK 0) ∧
    pos (Ev.waitLam 0) < pos (Ev.compute 1) :=
  ⟨(C8_amended_wait_order ⟨0, by decide⟩).1,
   (C8_amended_wait_order ⟨0, by decide⟩).2.2.2.1,
   (C8_amended_wait_order ⟨0, by decide⟩).2.2.2.2.2.2⟩

/-- C9: the named scratchpad regions — input double buffer, output double
buffer, weight double buffer, multiplier double buffer, shift (lambda)
double buffer and the im2col workspace — are pairwise non-overlapping, the
pwt workspace starts at or after the end of the im2col workspace, and every
DMA local destination interval (prologue and loop) and every buffer interval
handed to the compute kernel lies entirely within the region of its role. -/
theorem C9_scratch_layout :
    regions.Pairwise LocRange.disjoint ∧
    im2colRegion.lo + im2colRegion.len ≤ pwtOff ∧
    LocRange.inside prologueXRange xRegion ∧
    LocRange.inside prologueWRange wRegion ∧
    LocRange.inside prologueKRange kRegion ∧
    LocRange.inside prologueLamRange lamRegion ∧
    (∀ i : Fin 7,
      LocRange.inside (xLoadRange i.val) xRegion ∧
      LocRange.inside (wLoadRange i.val) wRegion ∧
      LocRange.inside (kLoadRange i.val) kRegion ∧
      LocRange.inside (lamLoadRange i.val) lamRegion) ∧
    (∀ i : Fin 8,
      LocRange.inside (yStoreRange i.val) yRegion ∧
      LocRange.inside (xExecRange i.val) xRegion ∧
      LocRange.inside (wExecRange i.val) wRegion ∧
      LocRange.inside (kExecRange i.val) kRegion ∧
      LocRange.inside (lamExecRange i.val) lamRegion ∧
      LocRange.inside (yExecRange i.val) yRegion) := by
  decide

/-- C9 witness: instantiated at iteration 0. -/
theorem C9_scratch_layout_witness :
    LocRange.inside (xLoadRange 0) xRegion ∧
    LocRange.inside (yStoreRange 0) yRegion :=
  ⟨(C9_scratch_layout.2.2.2.2.2.2.1 ⟨0, by decide⟩).1,
   (C9_scratch_layout.2.2.2.2.2.2.2 ⟨0, by decide⟩).1⟩

/-- C10: at every reachable point of the execution the input-channel-block
index equals the output-channel-block index, both for the load and for the
exec coordinate; consequently the weight-reload condition
`_i_nif_load != _i_nif_exec or _i_nof_load != _i_nof_exec` is equivalent to
`_i_nof_load != _i_nof_exec` alone. -/
theorem C10_nif_equals_nof :
    (∀ i : Fin 9,
      (stateAt i.val).i_nif_load = (stateAt i.val).i_nof_load ∧
      (stateAt i.val).i_nif_exec = (stateAt i.val).i_nof_exec) ∧
    (∀ i : Fin 8,
      (((obsAt i.val).load_nif ≠ (obsAt i.val).exec_nif ∨
        (obsAt i.val).load_nof ≠ (obsAt i.val).exec_nof) ↔
        (obsAt i.val).load_nof ≠ (obsAt i.val).exec_nof) ∧
      ((obsAt i.val).reloadW = true ↔
        (obsAt i.val).load_nof ≠ (obsAt i.val).exec_nof)) := by
  decide

/-- C10 witness: instantiated at the initial state and iteration 0. -/
theorem C10_nif_equals_nof_witness :
    (stateAt 0).i_nif_load = (stateAt 0).i_nof_load ∧
    ((obsAt 0).reloadW = true ↔
      (obsAt 0).load_nof ≠ (obsAt 0).exec_nof) :=
  ⟨(C10_nif_equals_nof.1 ⟨0, by decide⟩).1,
   (C10_nif_equals_nof.2 ⟨0, by decide⟩).2⟩

end LayerConvDWBNRelu9
